import Mathlib

/-!
Shallow embedding of the in-memory student record store and its derived
analytics engine from `server/storage.ts` (class `MemStorage`), together
with proofs of the specification claims about it.

Modelling conventions:
* The two JavaScript `Map`s backing the store are modelled as association
  lists in insertion order (`Map.set` updates in place, `Map.delete`
  removes, `values()` iterates in insertion order).
* `cgpa` is stored as text, exactly as in the source; the on-demand
  numeric view is a model of JavaScript `parseFloat` over decimal text
  (optional sign, digits, optional fraction), returning `none` where
  `parseFloat` yields `NaN`.  Numeric comparisons with `NaN` are false in
  JavaScript, which the `Option` matches reproduce.
* `credits` is a natural number (the data-model invariant `credits ≥ 0`).
* `createdAt` is an abstract timestamp supplied by the caller of the
  mutating operation (the source uses `new Date().toISOString()`);
  it is modelled as a `Nat`.
* Asynchrony is irrelevant: every method is a pure state transformer, so
  mutators take and return an explicit `StoreState`.
-/

namespace MemStorage

/-- A subject record as stored in the subjects map.  `grade` and
`studentId` may be `null` in the source, hence `Option`. -/
structure Subject where
  id : String
  code : String
  name : String
  grade : Option String
  status : String
  studentId : Option String
  deriving Repr, DecidableEq

/-- A student record as stored in the students map.  The stored record
carries a `subjects` field (set by `createStudent` from the insert input)
which every read operation overwrites with the joined subject list, so
`StudentWithSubjects` has the same shape. -/
structure Student where
  id : String
  name : String
  email : String
  intake : String
  programme : String
  cgpa : String
  credits : Nat
  subjects : List Subject
  createdAt : Nat
  deriving Repr, DecidableEq

/-- The insert input for a student (`InsertStudent`): `credits` and
`subjects` are optional (`credits: insertStudent.credits || 0`,
`subjects: insertStudent.subjects || []`); `createdAt` is not part of the
input, it is set by the store at creation time. -/
structure InsertStudent where
  id : String
  name : String
  email : String
  intake : String
  programme : String
  cgpa : String
  credits : Option Nat
  subjects : Option (List Subject)
  deriving Repr, DecidableEq

/-- The update input for a student, one optional field per
`InsertStudent` field (`updateData` in the source): a field that is
`none` is absent from the object and left untouched by the object
spread `\x7b ...existingStudent, ...updateData \x7d`. -/
structure StudentPatch where
  id : Option String
  name : Option String
  email : Option String
  intake : Option String
  programme : Option String
  cgpa : Option String
  credits : Option Nat
  subjects : Option (List Subject)
  deriving Repr, DecidableEq

/-- The patch with no field present. -/
def emptyPatch : StudentPatch :=
  { id := none, name := none, email := none, intake := none,
    programme := none, cgpa := none, credits := none, subjects := none }

/-- The state of `MemStorage`: the two `Map`s, as association lists in
insertion order. -/
structure StoreState where
  students : List (String × Student)
  subjects : List (String × Subject)
  deriving Repr, DecidableEq

/-- `Map.get`: the value at the first (in a well-formed map, only)
entry with the given key. -/
def mapGet {α : Type} (m : List (String × α)) (k : String) : Option α :=
  (m.find? (fun p => p.1 == k)).map (fun p => p.2)

/-- `Map.has`: whether an entry with the given key exists. -/
def mapHas {α : Type} (m : List (String × α)) (k : String) : Bool :=
  m.any (fun p => p.1 == k)

/-- `Map.set`: update the existing entry in place (preserving its
position) or append a fresh entry at the end. -/
def mapSet {α : Type} (m : List (String × α)) (k : String) (v : α) :
    List (String × α) :=
  if mapHas m k then
    m.map (fun p => if p.1 == k then (k, v) else p)
  else
    m ++ [(k, v)]

/-- `Map.delete` (the resulting map): remove the entry with the given
key. -/
def mapDelete {α : Type} (m : List (String × α)) (k : String) :
    List (String × α) :=
  m.filter (fun p => p.1 != k)

/-- Decimal digit value of a character. -/
def digitVal (c : Char) : Nat := c.toNat - 48

/-- Split a leading run of decimal digits off a character list. -/
def takeDigits : List Char → List Nat × List Char
  | [] => ([], [])
  | c :: cs =>
    if c.isDigit then
      let r := takeDigits cs
      (digitVal c :: r.1, r.2)
    else
      ([], c :: cs)

/-- The natural number denoted by a digit list (most significant
first). -/
def digitsToNat (ds : List Nat) : Nat :=
  ds.foldl (fun a d => a * 10 + d) 0

/-- Model of JavaScript `parseFloat` on decimal text: optional sign,
integer digits, optional fraction after a dot, longest valid leading run;
`none` models `NaN` (no digit could be parsed).  Exponents and special
forms are outside the cgpa text format and not modelled. -/
def parseFloat (s : String) : Option ℚ :=
  let signed : ℚ × List Char :=
    match s.data with
    | '-' :: rest => (-1, rest)
    | '+' :: rest => (1, rest)
    | cs => (1, cs)
  let ipr := takeDigits signed.2
  match ipr.2 with
  | '.' :: rest =>
    let fpr := takeDigits rest
    if ipr.1.isEmpty && fpr.1.isEmpty then none
    else
      some (signed.1 * ((digitsToNat ipr.1 : ℚ) +
        (digitsToNat fpr.1 : ℚ) / ((10 : ℚ) ^ fpr.1.length)))
  | _ =>
    if ipr.1.isEmpty then none
    else some (signed.1 * (digitsToNat ipr.1 : ℚ))

/-- `parseFloat(s.cgpa)`. -/
def parsedCgpa (s : Student) : Option ℚ := parseFloat s.cgpa

/-- `getSubjectsByStudentId`: all subjects whose `studentId` equals the
given key, in insertion order (`null` never matches a string key). -/
def getSubjectsByStudentId (st : StoreState) (studentId : String) :
    List Subject :=
  (st.subjects.map (fun p => p.2)).filter
    (fun subj => subj.studentId == some studentId)

/-- The read-time join: the stored record with its `subjects` field
replaced by the joined subject list. -/
def joinStudent (st : StoreState) (s : Student) : Student :=
  { s with subjects := getSubjectsByStudentId st s.id }

/-- `getStudent`: the stored record under the key, joined, or the
not-found signal. -/
def getStudent (st : StoreState) (id : String) : Option Student :=
  (mapGet st.students id).map (joinStudent st)

/-- `getAllStudents`: every stored student joined, in insertion order. -/
def getAllStudents (st : StoreState) : List Student :=
  (st.students.map (fun p => p.2)).map (joinStudent st)

/-- `getStudentsBySemester`: the students of `getAllStudents` whose
`intake` equals the key, exact string comparison. -/
def getStudentsBySemester (st : StoreState) (semester : String) :
    List Student :=
  (getAllStudents st).filter (fun s => s.intake == semester)

/-- The student record built by `createStudent` from the insert input:
`credits` defaulted to 0, `subjects` defaulted to `[]`, `createdAt` set
to the current time. -/
def buildStudent (ins : InsertStudent) (now : Nat) : Student :=
  { id := ins.id, name := ins.name, email := ins.email,
    intake := ins.intake, programme := ins.programme, cgpa := ins.cgpa,
    credits := ins.credits.getD 0, subjects := ins.subjects.getD [],
    createdAt := now }

/-- `createStudent`: store the built record under its own `id` (silently
overwriting any existing entry) and return it with an empty subject
list. -/
def createStudent (st : StoreState) (ins : InsertStudent) (now : Nat) :
    Student × StoreState :=
  let student := buildStudent ins now
  ({ student with subjects := [] },
   { st with students := mapSet st.students student.id student })

/-- The object spread `\x7b ...existingStudent, ...updateData \x7d`:
fields present in the patch override, absent fields are retained;
`createdAt` is not an `InsertStudent` field, so it is always retained. -/
def applyPatch (s : Student) (p : StudentPatch) : Student :=
  { id := p.id.getD s.id, name := p.name.getD s.name,
    email := p.email.getD s.email, intake := p.intake.getD s.intake,
    programme := p.programme.getD s.programme,
    cgpa := p.cgpa.getD s.cgpa, credits := p.credits.getD s.credits,
    subjects := p.subjects.getD s.subjects, createdAt := s.createdAt }

/-- `updateStudent`: not-found signal (state untouched) when the key is
absent; otherwise merge the patch onto the existing record, store it
under the same key, and return it joined. -/
def updateStudent (st : StoreState) (id : String) (p : StudentPatch) :
    Option Student × StoreState :=
  match mapGet st.students id with
  | none => (none, st)
  | some existing =>
    let updated := applyPatch existing p
    let st2 : StoreState := { st with students := mapSet st.students id updated }
    (some { updated with subjects := getSubjectsByStudentId st2 id }, st2)

/-- `deleteStudent`: remove the entry with the key; the returned flag is
whether an entry existed.  The subjects map is untouched. -/
def deleteStudent (st : StoreState) (id : String) : Bool × StoreState :=
  (mapHas st.students id, { st with students := mapDelete st.students id })

/-- Deans List test of the analytics engine:
`parseFloat(s.cgpa) >= 3.75 && s.credits >= 12` (false on `NaN`). -/
def isDeansList (s : Student) : Bool :=
  match parsedCgpa s with
  | some q => decide (q ≥ 3.75) && decide (s.credits ≥ 12)
  | none => false

/-- Probation test used by the metrics count:
`parseFloat(s.cgpa) < 2.00`, no credits condition. -/
def isProbationMetric (s : Student) : Bool :=
  match parsedCgpa s with
  | some q => decide (q < 2)
  | none => false

/-- Probation test used by the performance segmentation:
`parseFloat(s.cgpa) < 2.00 && s.credits > 0`. -/
def isProbationSegment (s : Student) : Bool :=
  match parsedCgpa s with
  | some q => decide (q < 2) && decide (s.credits > 0)
  | none => false

/-- Good-standing test of the performance segmentation:
`cgpa >= 2.00 && (cgpa < 3.75 || s.credits < 12)`. -/
def isGoodStanding (s : Student) : Bool :=
  match parsedCgpa s with
  | some q => decide (q ≥ 2) && (decide (q < 3.75) || decide (s.credits < 12))
  | none => false

/-- Candidate-set resolution shared by both analytics operations:
`if (semester && semester !== "all")` — a missing key, the empty string
(falsy) and the literal `"all"` all select the full student list. -/
def resolveCandidates (st : StoreState) (semester : Option String) :
    List Student :=
  match semester with
  | some sem =>
    if sem != "" && sem != "all" then getStudentsBySemester st sem
    else getAllStudents st
  | none => getAllStudents st

/-- The metrics record; `averageCGPA` is `Option ℚ` with `none`
modelling `NaN`. -/
structure DashboardMetrics where
  totalStudents : Nat
  deansListCount : Nat
  probationCount : Nat
  averageCGPA : Option ℚ
  deriving Repr, DecidableEq

/-- One step of `students.reduce((sum, s) => sum + parseFloat(s.cgpa), 0)`:
`NaN` (`none`) is absorbing, as `NaN + x` is `NaN`. -/
def cgpaFold (acc : Option ℚ) (s : Student) : Option ℚ :=
  match acc, parsedCgpa s with
  | some a, some q => some (a + q)
  | _, _ => none

/-- The running cgpa sum of the `reduce` call, starting from 0. -/
def cgpaSum (l : List Student) : Option ℚ :=
  l.foldl cgpaFold (some 0)

/-- `Math.round`: round half toward positive infinity. -/
def jsRound (q : ℚ) : ℤ := Int.floor (q + 1 / 2)

/-- `Math.round(x * 100) / 100`: rounding to 2 decimal places. -/
def round2 (q : ℚ) : ℚ := (jsRound (q * 100) : ℚ) / 100

/-- The body of `getDashboardMetrics` on a resolved candidate list. -/
def metricsOf (students : List Student) : DashboardMetrics :=
  let total := students.length
  let avg : Option ℚ :=
    if total > 0 then (cgpaSum students).map (fun sum => sum / (total : ℚ))
    else some 0
  { totalStudents := total,
    deansListCount := (students.filter isDeansList).length,
    probationCount := (students.filter isProbationMetric).length,
    averageCGPA := avg.map round2 }

/-- `getDashboardMetrics`. -/
def getDashboardMetrics (st : StoreState) (semester : Option String) :
    DashboardMetrics :=
  metricsOf (resolveCandidates st semester)

/-- The performance segmentation result: three lists of joined student
records. -/
structure PerformanceData where
  deansListStudents : List Student
  probationStudents : List Student
  goodStandingStudents : List Student
  deriving Repr, DecidableEq

/-- The body of `getDashboardPerformance` on a resolved candidate
list. -/
def performanceOf (students : List Student) : PerformanceData :=
  { deansListStudents := students.filter isDeansList,
    probationStudents := students.filter isProbationSegment,
    goodStandingStudents := students.filter isGoodStanding }

/-- `getDashboardPerformance`. -/
def getDashboardPerformance (st : StoreState) (semester : Option String) :
    PerformanceData :=
  performanceOf (resolveCandidates st semester)

/-! ### Concrete states for the specification scenarios and for witnesses -/

/-- Scenario student S1: `cgpa=3.80, credits=15`. -/
def scenarioS1 : Student :=
  { id := "S1", name := "Student One", email := "s1@uow.edu.my",
    intake := "Jun-25", programme := "BIS", cgpa := "3.80", credits := 15,
    subjects := [], createdAt := 0 }

/-- Scenario student S2: `cgpa=2.80, credits=15`. -/
def scenarioS2 : Student :=
  { id := "S2", name := "Student Two", email := "s2@uow.edu.my",
    intake := "Jun-25", programme := "BIS", cgpa := "2.80", credits := 15,
    subjects := [], createdAt := 0 }

/-- Scenario student S3: `cgpa=1.50, credits=0`. -/
def scenarioS3 : Student :=
  { id := "S3", name := "Student Three", email := "s3@uow.edu.my",
    intake := "Jun-25", programme := "BIS", cgpa := "1.50", credits := 0,
    subjects := [], createdAt := 0 }

/-- The store of the specification Scenario B: students S1, S2, S3, no
subjects. -/
def scenarioBStore : StoreState :=
  { students := [("S1", scenarioS1), ("S2", scenarioS2), ("S3", scenarioS3)],
    subjects := [] }

/-- The candidate list of Scenario B (all students, no filter). -/
def scenarioBList : List Student := getAllStudents scenarioBStore

/-- The empty store (Scenario C). -/
def emptyStore : StoreState := { students := [], subjects := [] }

/-- A stored student used by concrete update/delete cases. -/
def studentA : Student :=
  { id := "A0001", name := "Anya Taylor-Joy", email := "A0001@uow.edu.my",
    intake := "Jun-25", programme := "BIS", cgpa := "3.50", credits := 18,
    subjects := [], createdAt := 7 }

/-- A store holding only `studentA` under its own id. -/
def storeA : StoreState := { students := [("A0001", studentA)], subjects := [] }

/-- A patch whose only present field is a different `id`. -/
def idPatch : StudentPatch := { emptyPatch with id := some "B999" }

/-- A subject whose `studentId` references `"A1"` while no such student
exists (orphaned subjects are expressible: `createSubject` checks no
referential integrity and `deleteStudent` does not cascade). -/
def orphanSubject : Subject :=
  { id := "u1", code := "CS101", name := "Intro", grade := some "A",
    status := "completed", studentId := some "A1" }

/-- A store with the orphaned subject and no students. -/
def orphanStore : StoreState :=
  { students := [], subjects := [("u1", orphanSubject)] }

/-- An insert input with id `"A1"`. -/
def insertA1 : InsertStudent :=
  { id := "A1", name := "New Student", email := "a1@uow.edu.my",
    intake := "Jun-25", programme := "BIS", cgpa := "3.00",
    credits := some 10, subjects := none }

/-- An insert input with id `"A1"` and different attributes, for the
duplicate-creation case. -/
def insertA1v2 : InsertStudent :=
  { id := "A1", name := "Newer Student", email := "a1b@uow.edu.my",
    intake := "Oct-25", programme := "BCS", cgpa := "2.50",
    credits := none, subjects := none }

/-! ### Helper lemmas -/

attribute [local semireducible] Rat.mul Rat.inv Rat.add Rat.sub Rat.ofScientific

lemma mapHas_iff {α : Type} (m : List (String × α)) (k : String) :
    mapHas m k = true ↔ k ∈ m.map (fun p => p.1) := by
  simp only [mapHas, List.any_eq_true, List.mem_map]
  constructor
  · rintro ⟨p, hp, hk⟩
    exact ⟨p, hp, by simpa using hk⟩
  · rintro ⟨p, hp, hk⟩
    exact ⟨p, hp, by simpa using hk⟩

lemma find_map_replace {α : Type} (m : List (String × α)) (k : String) (v : α)
    (h : mapHas m k = true) :
    (m.map (fun p => if p.1 == k then (k, v) else p)).find?
      (fun p => p.1 == k) = some (k, v) := by
  induction m with
  | nil => simp [mapHas] at h
  | cons a m ih =>
    by_cases hak : (a.1 == k) = true
    · simp [List.find?, hak]
    · have hak2 : (a.1 == k) = false := by simpa using hak
      have h2 : mapHas m k = true := by
        simp only [mapHas, List.any_cons, hak2, Bool.false_or] at h
        exact h
      simp only [List.map_cons, hak2, if_false, List.find?, Bool.false_eq_true]
      exact ih h2

lemma find_append_absent {α : Type} (m : List (String × α)) (k : String) (v : α)
    (h : mapHas m k = false) :
    (m ++ [(k, v)]).find? (fun p => p.1 == k) = some (k, v) := by
  induction m with
  | nil => simp [List.find?]
  | cons a m ih =>
    simp only [mapHas, List.any_cons, Bool.or_eq_false_iff] at h
    simp only [List.cons_append, List.find?, h.1, Bool.false_eq_true]
    exact ih (by simp only [mapHas]; exact h.2)

lemma mapGet_mapSet_self {α : Type} (m : List (String × α)) (k : String) (v : α) :
    mapGet (mapSet m k v) k = some v := by
  unfold mapGet mapSet
  by_cases h : mapHas m k
  · rw [if_pos h, find_map_replace m k v h]
    rfl
  · rw [if_neg h, find_append_absent m k v (by simpa using h)]
    rfl

lemma find_replace_other {α : Type} (m : List (String × α)) (k j : String) (v : α)
    (hjk : j ≠ k) :
    (m.map (fun p => if p.1 == k then (k, v) else p)).find? (fun p => p.1 == j) =
      m.find? (fun p => p.1 == j) := by
  induction m with
  | nil => simp
  | cons a m ih =>
    have hkj : (k == j) = false := by simpa using fun h => hjk h.symm
    by_cases hak : (a.1 == k) = true
    · have ha : a.1 = k := by simpa using hak
      have haj : (a.1 == j) = false := by rw [ha]; exact hkj
      simp only [List.map_cons, if_pos hak, List.find?, hkj, haj]
      exact ih
    · simp only [List.map_cons, if_neg hak, List.find?]
      by_cases haj : (a.1 == j) = true
      · simp [haj]
      · have haj2 : (a.1 == j) = false := by simpa using haj
        simp only [haj2]
        exact ih

lemma find_append_other {α : Type} (m : List (String × α)) (k j : String) (v : α)
    (hjk : j ≠ k) :
    (m ++ [(k, v)]).find? (fun p => p.1 == j) = m.find? (fun p => p.1 == j) := by
  have hkj : (k == j) = false := by simpa using fun h => hjk h.symm
  induction m with
  | nil => simp [List.find?, hkj]
  | cons a m ih =>
    simp only [List.cons_append, List.find?]
    by_cases haj : (a.1 == j) = true
    · simp [haj]
    · have haj2 : (a.1 == j) = false := by simpa using haj
      simp only [haj2, Bool.false_eq_true]
      exact ih

lemma mapGet_mapSet_other {α : Type} (m : List (String × α)) (k j : String)
    (v : α) (hjk : j ≠ k) :
    mapGet (mapSet m k v) j = mapGet m j := by
  unfold mapGet mapSet
  by_cases h : mapHas m k
  · rw [if_pos h, find_replace_other m k j v hjk]
  · rw [if_neg h, find_append_other m k j v hjk]

lemma map_replace_absent {α : Type} (m : List (String × α)) (k : String) (v : α)
    (h : mapHas m k = false) :
    m.map (fun p => if p.1 == k then (k, v) else p) = m := by
  induction m with
  | nil => rfl
  | cons a m ih =>
    simp only [mapHas, List.any_cons, Bool.or_eq_false_iff] at h
    have hak : ¬((a.1 == k) = true) := by simp [h.1]
    simp only [List.map_cons, if_neg hak]
    rw [ih (by simp only [mapHas]; exact h.2)]

lemma map_replace_keys {α : Type} (m : List (String × α)) (k : String) (v : α) :
    (m.map (fun p => if p.1 == k then (k, v) else p)).map (fun p => p.1) =
      m.map (fun p => p.1) := by
  induction m with
  | nil => rfl
  | cons a m ih =>
    by_cases hak : (a.1 == k) = true
    · have ha : a.1 = k := by simpa using hak
      simp only [List.map_cons, if_pos hak, ih]
      simp [ha]
    · simp only [List.map_cons, if_neg hak, ih]

lemma mapSet_keys_present {α : Type} (m : List (String × α)) (k : String) (v : α)
    (h : mapHas m k = true) :
    (mapSet m k v).map (fun p => p.1) = m.map (fun p => p.1) := by
  unfold mapSet
  rw [if_pos h, map_replace_keys]

lemma mapSet_keys_nodup {α : Type} (m : List (String × α)) (k : String) (v : α)
    (hnd : (m.map (fun p => p.1)).Nodup) :
    ((mapSet m k v).map (fun p => p.1)).Nodup := by
  by_cases h : mapHas m k
  · rw [mapSet_keys_present m k v h]
    exact hnd
  · unfold mapSet
    rw [if_neg h, List.map_append]
    have hk : k ∉ m.map (fun p => p.1) := by
      rw [← mapHas_iff]
      simp [h]
    simp only [List.map_cons, List.map_nil]
    rw [List.nodup_append]
    exact ⟨hnd, List.nodup_singleton k, by
      intro a ha hb
      simp only [List.mem_singleton] at hb
      exact hk (hb ▸ ha)⟩

lemma filter_key_absent {α : Type} (m : List (String × α)) (k : String)
    (h : mapHas m k = false) :
    m.filter (fun p => p.1 == k) = [] := by
  rw [List.filter_eq_nil_iff]
  intro p hp
  simp only [mapHas, List.any_eq_false] at h
  simpa using h p hp

lemma mapSet_filter_self {α : Type} (m : List (String × α)) (k : String) (v : α)
    (hnd : (m.map (fun p => p.1)).Nodup) :
    (mapSet m k v).filter (fun p => p.1 == k) = [(k, v)] := by
  unfold mapSet
  by_cases h : mapHas m k
  · rw [if_pos h]
    induction m with
    | nil => simp [mapHas] at h
    | cons a m ih =>
      simp only [List.map_cons, List.nodup_cons] at hnd
      by_cases hak : (a.1 == k) = true
      · have ha : a.1 = k := by simpa using hak
        have hm : mapHas m k = false := by
          rw [← Bool.not_eq_true, mapHas_iff]
          rw [ha] at hnd
          exact hnd.1
        rw [List.map_cons, if_pos hak,
          List.filter_cons_of_pos (by simp),
          map_replace_absent m k v hm, filter_key_absent m k hm]
      · have hak2 : (a.1 == k) = false := by simpa using hak
        have h2 : mapHas m k = true := by
          simp only [mapHas, List.any_cons, hak2, Bool.false_or] at h
          exact h
        rw [List.map_cons, if_neg hak,
          List.filter_cons_of_neg (by simp [hak2])]
        exact ih hnd.2 h2
  · rw [if_neg h, List.filter_append,
      filter_key_absent m k (by simpa using h)]
    simp

lemma lowCgpa_zeroCredits (s : Student) (q : ℚ) (h : parsedCgpa s = some q)
    (hq : q < 2) (hc : s.credits = 0) :
    isProbationMetric s = true ∧ isDeansList s = false ∧
    isProbationSegment s = false ∧ isGoodStanding s = false := by
  have h1 : ¬(q ≥ 3.75) := by intro h2; nlinarith [h2]
  have h2 : ¬((2 : ℚ) ≤ q) := not_le.2 hq
  refine ⟨?_, ?_, ?_, ?_⟩
  · simp only [isProbationMetric, h]
    simp [hq]
  · simp only [isDeansList, h]
    simp [h1]
  · simp only [isProbationSegment, h, hc]
    simp
  · simp only [isGoodStanding, h]
    simp [h2]

lemma deans_excl_seg (s : Student) (hd : isDeansList s = true) :
    isProbationSegment s = false := by
  unfold isDeansList at hd
  unfold isProbationSegment
  cases hpc : parsedCgpa s with
  | none => rfl
  | some q =>
    rw [hpc] at hd
    simp only [Bool.and_eq_true, decide_eq_true_eq] at hd
    have hq : ¬(q < 2) := by nlinarith [hd.1]
    simp [hq]

lemma deans_excl_good (s : Student) (hd : isDeansList s = true) :
    isGoodStanding s = false := by
  unfold isDeansList at hd
  unfold isGoodStanding
  cases hpc : parsedCgpa s with
  | none => rfl
  | some q =>
    rw [hpc] at hd
    simp only [Bool.and_eq_true, decide_eq_true_eq] at hd
    have h1 : ¬(q < 3.75) := not_lt.2 hd.1
    have h2 : ¬(s.credits < 12) := Nat.not_lt.2 hd.2
    simp [h1, h2]

lemma seg_excl_good (s : Student) (hp : isProbationSegment s = true) :
    isGoodStanding s = false := by
  unfold isProbationSegment at hp
  unfold isGoodStanding
  cases hpc : parsedCgpa s with
  | none => rfl
  | some q =>
    rw [hpc] at hp
    simp only [Bool.and_eq_true, decide_eq_true_eq] at hp
    have hq : ¬((2 : ℚ) ≤ q) := not_le.2 hp.1
    simp [hq]

lemma classify_total (s : Student) (q : ℚ) (h : parsedCgpa s = some q) :
    (q < 2 ∧ s.credits = 0) ∨ isDeansList s = true ∨
    isProbationSegment s = true ∨ isGoodStanding s = true := by
  by_cases h2 : q < 2
  · rcases Nat.eq_zero_or_pos s.credits with hc | hc
    · exact Or.inl ⟨h2, hc⟩
    · refine Or.inr (Or.inr (Or.inl ?_))
      simp only [isProbationSegment, h]
      simp [h2, hc]
  · have hq2 : (2 : ℚ) ≤ q := not_lt.1 h2
    by_cases h3 : q < 3.75
    · refine Or.inr (Or.inr (Or.inr ?_))
      simp only [isGoodStanding, h]
      simp [hq2, h3]
    · by_cases h4 : s.credits < 12
      · refine Or.inr (Or.inr (Or.inr ?_))
        simp only [isGoodStanding, h]
        simp [hq2, h4]
      · refine Or.inr (Or.inl ?_)
        simp only [isDeansList, h]
        simp [not_lt.1 h3, Nat.not_lt.1 h4]

lemma cgpaFold_go (l : List Student) (a : ℚ)
    (h : ∀ s, s ∈ l → (parsedCgpa s).isSome = true) :
    l.foldl cgpaFold (some a) = some (a + (l.filterMap parsedCgpa).sum) := by
  induction l generalizing a with
  | nil => simp
  | cons s l ih =>
    obtain ⟨q, hq⟩ := Option.isSome_iff_exists.1 (h s (by simp))
    rw [List.foldl_cons, List.filterMap_cons]
    simp only [hq, cgpaFold]
    rw [ih (a + q) (fun t ht => h t (by simp [ht])), List.sum_cons, add_assoc]

lemma cgpaSum_eq (l : List Student)
    (h : ∀ s, s ∈ l → (parsedCgpa s).isSome = true) :
    cgpaSum l = some ((l.filterMap parsedCgpa).sum) := by
  unfold cgpaSum
  rw [cgpaFold_go l 0 h, zero_add]

lemma not_mem_filter_of_false {α : Type} {p : α → Bool} {l : List α} {s : α}
    (h : p s = false) : s ∉ l.filter p := by
  intro hin
  have h2 := (List.mem_filter.1 hin).2
  rw [h] at h2
  exact absurd h2 (by simp)

lemma mapHas_of_mapGet {α : Type} {m : List (String × α)} {k : String} {v : α}
    (h : mapGet m k = some v) : mapHas m k = true := by
  unfold mapGet at h
  cases hf : m.find? (fun p => p.1 == k) with
  | none => rw [hf] at h; exact absurd h (by simp)
  | some p =>
    have hp := List.find?_some hf
    have hmem : p ∈ m := List.mem_of_find?_eq_some hf
    rw [mapHas_iff]
    exact List.mem_map.2 ⟨p, hmem, by simpa using hp⟩

lemma createStudent_students (st : StoreState) (ins : InsertStudent)
    (now : Nat) :
    (createStudent st ins now).2.students =
      mapSet st.students ins.id (buildStudent ins now) := rfl

lemma mapGet_mapDelete_self {α : Type} (m : List (String × α)) (k : String) :
    mapGet (mapDelete m k) k = none := by
  unfold mapGet mapDelete
  have hf : (m.filter (fun p => p.1 != k)).find? (fun p => p.1 == k) = none := by
    rw [List.find?_eq_none]
    intro p hp
    have h2 := List.of_mem_filter hp
    simp only [bne_iff_ne, ne_eq] at h2
    simp [h2]
  rw [hf]
  rfl

/-! ### The claims -/

/-- C6: `getStudentsBySemester(k)` is exactly the order-preserving
filter of `getAllStudents()` by `intake == k` (exact, case-sensitive
string comparison): it is a sublist of `getAllStudents()` and a student
belongs to it iff it belongs to `getAllStudents()` and its intake
equals `k`. -/
theorem c6_bySemester_is_filter (st : StoreState) (k : String) :
    getStudentsBySemester st k =
      (getAllStudents st).filter (fun s => s.intake == k) ∧
    List.Sublist (getStudentsBySemester st k) (getAllStudents st) ∧
    (∀ s : Student, s ∈ getStudentsBySemester st k ↔
      s ∈ getAllStudents st ∧ s.intake = k) := by
  refine ⟨rfl, List.filter_sublist _, fun s => ?_⟩
  simp [getStudentsBySemester, List.mem_filter]

/-- C10: the empty string is falsy, so both analytics operations treat
the empty-string filter key like a missing key or the literal "all"
(candidate set = all students), even though intake-filtering with the
empty string would select only students with empty intake. -/
theorem c10_empty_key_selects_all (st : StoreState) :
    getDashboardMetrics st (some "") = getDashboardMetrics st none ∧
    getDashboardMetrics st (some "all") = getDashboardMetrics st none ∧
    getDashboardPerformance st (some "") = getDashboardPerformance st none ∧
    getDashboardPerformance st (some "all") = getDashboardPerformance st none ∧
    getStudentsBySemester st "" =
      (getAllStudents st).filter (fun s => s.intake == "") :=
  ⟨rfl, rfl, rfl, rfl, rfl⟩

/-- C7: for an id not present in the store, `updateStudent` returns the
explicit not-found signal (`none`) paired with the completely unchanged
state: both collections are left as they were. -/
theorem c7_update_notFound (st : StoreState) (id : String) (p : StudentPatch)
    (h : mapGet st.students id = none) :
    updateStudent st id p = (none, st) := by
  unfold updateStudent
  rw [h]

/-- Witness for C7 at a concrete store and id. -/
theorem c7_witness :
    mapGet emptyStore.students "A0001" = none ∧
    updateStudent emptyStore "A0001" idPatch = (none, emptyStore) :=
  ⟨rfl, c7_update_notFound emptyStore "A0001" idPatch rfl⟩

/-- C1: a candidate whose cgpa parses below 2.00 and whose credits are 0
satisfies the metric probation predicate, whose filter length is
`probationCount`, yet belongs to none of the three lists of
`getDashboardPerformance`; concretely, in Scenario B the metrics count
`probationCount = 1` of 3 students while the three performance lists
together hold only 2 students. -/
theorem c1_probation_asymmetry (students : List Student) (s : Student) (q : ℚ)
    (hmem : s ∈ students) (hq : parseFloat s.cgpa = some q) (hlt : q < 2)
    (hc : s.credits = 0) :
    ((metricsOf students).probationCount =
        (students.filter isProbationMetric).length ∧
      s ∈ students.filter isProbationMetric) ∧
    (s ∉ (performanceOf students).deansListStudents ∧
      s ∉ (performanceOf students).probationStudents ∧
      s ∉ (performanceOf students).goodStandingStudents) ∧
    ((getDashboardMetrics scenarioBStore none).totalStudents = 3 ∧
      (getDashboardMetrics scenarioBStore none).probationCount = 1 ∧
      (getDashboardPerformance scenarioBStore none).deansListStudents.length +
        (getDashboardPerformance scenarioBStore none).probationStudents.length +
        (getDashboardPerformance scenarioBStore none).goodStandingStudents.length
        = 2) := by
  obtain ⟨hm, hdl, hps, hgs⟩ := lowCgpa_zeroCredits s q hq hlt hc
  refine ⟨⟨rfl, List.mem_filter.2 ⟨hmem, hm⟩⟩,
    ⟨not_mem_filter_of_false hdl, not_mem_filter_of_false hps,
      not_mem_filter_of_false hgs⟩, by decide, by decide, by decide⟩

/-- Witness for C1: Scenario B student S3. -/
theorem c1_witness :
    scenarioS3 ∈ scenarioBList.filter isProbationMetric ∧
    scenarioS3 ∉ (performanceOf scenarioBList).probationStudents ∧
    (getDashboardMetrics scenarioBStore none).probationCount = 1 :=
  have h := c1_probation_asymmetry scenarioBList scenarioS3 (3 / 2)
    (by decide) (by decide) (by decide) rfl
  ⟨h.1.2, h.2.1.2.1, h.2.2.2.1⟩

/-- C2: on a candidate list whose cgpa texts all parse, the three lists
of `getDashboardPerformance` are pairwise disjoint sublists of the
candidate list; a candidate with parsed cgpa below 2.00 and credits = 0
is in none of them, and every other candidate is in exactly one. -/
theorem c2_performance_partition (students : List Student)
    (hparse : ∀ s, s ∈ students → (parseFloat s.cgpa).isSome = true) :
    (List.Sublist ((performanceOf students).deansListStudents) students ∧
      List.Sublist ((performanceOf students).probationStudents) students ∧
      List.Sublist ((performanceOf students).goodStandingStudents) students) ∧
    (∀ s : Student,
      ¬(s ∈ (performanceOf students).deansListStudents ∧
        s ∈ (performanceOf students).probationStudents) ∧
      ¬(s ∈ (performanceOf students).deansListStudents ∧
        s ∈ (performanceOf students).goodStandingStudents) ∧
      ¬(s ∈ (performanceOf students).probationStudents ∧
        s ∈ (performanceOf students).goodStandingStudents)) ∧
    (∀ s, s ∈ students →
      (((∃ q, parseFloat s.cgpa = some q ∧ q < 2) ∧ s.credits = 0) →
        (s ∉ (performanceOf students).deansListStudents ∧
          s ∉ (performanceOf students).probationStudents ∧
          s ∉ (performanceOf students).goodStandingStudents)) ∧
      (¬((∃ q, parseFloat s.cgpa = some q ∧ q < 2) ∧ s.credits = 0) →
        ((s ∈ (performanceOf students).deansListStudents ∧
            s ∉ (performanceOf students).probationStudents ∧
            s ∉ (performanceOf students).goodStandingStudents) ∨
          (s ∉ (performanceOf students).deansListStudents ∧
            s ∈ (performanceOf students).probationStudents ∧
            s ∉ (performanceOf students).goodStandingStudents) ∨
          (s ∉ (performanceOf students).deansListStudents ∧
            s ∉ (performanceOf students).probationStudents ∧
            s ∈ (performanceOf students).goodStandingStudents)))) := by
  refine ⟨⟨List.filter_sublist _, List.filter_sublist _, List.filter_sublist _⟩,
    fun s => ⟨?_, ?_, ?_⟩, fun s hs => ⟨?_, ?_⟩⟩
  · rintro ⟨h1, h2⟩
    have e1 := (List.mem_filter.1 h1).2
    have e2 := (List.mem_filter.1 h2).2
    rw [deans_excl_seg s e1] at e2
    exact absurd e2 (by simp)
  · rintro ⟨h1, h2⟩
    have e1 := (List.mem_filter.1 h1).2
    have e2 := (List.mem_filter.1 h2).2
    rw [deans_excl_good s e1] at e2
    exact absurd e2 (by simp)
  · rintro ⟨h1, h2⟩
    have e1 := (List.mem_filter.1 h1).2
    have e2 := (List.mem_filter.1 h2).2
    rw [seg_excl_good s e1] at e2
    exact absurd e2 (by simp)
  · rintro ⟨⟨q, hq, hlt⟩, hc⟩
    obtain ⟨-, hdl, hps, hgs⟩ := lowCgpa_zeroCredits s q hq hlt hc
    exact ⟨not_mem_filter_of_false hdl, not_mem_filter_of_false hps,
      not_mem_filter_of_false hgs⟩
  · intro hnot
    obtain ⟨q, hq⟩ := Option.isSome_iff_exists.1 (hparse s hs)
    rcases classify_total s q hq with hexc | hd | hp | hg
    · exact absurd ⟨⟨q, hq, hexc.1⟩, hexc.2⟩ hnot
    · exact Or.inl ⟨List.mem_filter.2 ⟨hs, hd⟩,
        not_mem_filter_of_false (deans_excl_seg s hd),
        not_mem_filter_of_false (deans_excl_good s hd)⟩
    · refine Or.inr (Or.inl ⟨?_, List.mem_filter.2 ⟨hs, hp⟩,
        not_mem_filter_of_false (seg_excl_good s hp)⟩)
      intro hin
      have e1 := (List.mem_filter.1 hin).2
      rw [deans_excl_seg s e1] at hp
      exact absurd hp (by simp)
    · refine Or.inr (Or.inr ⟨?_, ?_, List.mem_filter.2 ⟨hs, hg⟩⟩)
      · intro hin
        have e1 := (List.mem_filter.1 hin).2
        rw [deans_excl_good s e1] at hg
        exact absurd hg (by simp)
      · intro hin
        have e1 := (List.mem_filter.1 hin).2
        rw [seg_excl_good s e1] at hg
        exact absurd hg (by simp)

/-- Witness for C2: the Scenario B candidate list, whose cgpa texts all
parse. -/
theorem c2_witness :
    (∀ s, s ∈ scenarioBList → (parseFloat s.cgpa).isSome = true) ∧
    List.Sublist ((performanceOf scenarioBList).deansListStudents)
      scenarioBList :=
  ⟨by decide, (c2_performance_partition scenarioBList (by decide)).1.1⟩

/-- C5: on an empty resolved candidate set `getDashboardMetrics` returns
all-zero metrics (the mean is defined as 0 rather than dividing by
zero), and on a non-empty set whose cgpa texts all parse, `averageCGPA`
is the arithmetic mean of the parsed cgpa values rounded to 2 decimal
places. -/
theorem c5_metrics_empty_and_mean (st : StoreState) (sem : Option String)
    (l : List Student) (hl : resolveCandidates st sem = l) :
    (l = [] → getDashboardMetrics st sem =
      { totalStudents := 0, deansListCount := 0, probationCount := 0,
        averageCGPA := some 0 }) ∧
    (l ≠ [] → (∀ s, s ∈ l → (parseFloat s.cgpa).isSome = true) →
      (getDashboardMetrics st sem).averageCGPA =
        some (round2 ((l.filterMap parsedCgpa).sum / (l.length : ℚ)))) := by
  constructor
  · intro he
    unfold getDashboardMetrics
    rw [hl, he]
    unfold metricsOf
    norm_num [round2, jsRound]
  · intro hne hparse
    unfold getDashboardMetrics
    rw [hl]
    unfold metricsOf
    have hlen : 0 < l.length := List.length_pos.2 hne
    simp only [hlen, if_pos, cgpaSum_eq l hparse, Option.map_map, Option.map_some]
    rfl

/-- Witness for C5: the empty store and the Scenario B store. -/
theorem c5_witness :
    getDashboardMetrics emptyStore none =
      { totalStudents := 0, deansListCount := 0, probationCount := 0,
        averageCGPA := some 0 } ∧
    (getDashboardMetrics scenarioBStore none).averageCGPA =
      some (round2 ((scenarioBList.filterMap parsedCgpa).sum /
        (scenarioBList.length : ℚ))) :=
  ⟨(c5_metrics_empty_and_mean emptyStore none [] rfl).1 rfl,
   (c5_metrics_empty_and_mean scenarioBStore none scenarioBList rfl).2
     (by decide) (by decide)⟩

/-- C3 counterexample: the update input type has an optional `id` field
(the object spread merges every present field), so updating student
"A0001" with a patch whose only present field is `id = "B999"` changes
the stored id field of the student — the claim that update never alters the
stored id fails. -/
theorem c3_counterexample :
    studentA.id = "A0001" ∧
    (mapGet (updateStudent storeA "A0001" idPatch).2.students "A0001").map
      Student.id = some "B999" ∧
    ("B999" : String) ≠ "A0001" := by
  refine ⟨rfl, rfl, by decide⟩

/-- C3 amended: `updateStudent` changes only the fields present in the
patch and retains every absent field; `createdAt` (not an input field)
and the map key are always invariant, and every other entry of the
store is untouched — but the stored `id` field itself is overwritten
whenever the patch contains an id. -/
theorem c3_update_frame (st : StoreState) (id : String) (p : StudentPatch)
    (ex : Student) (h : mapGet st.students id = some ex) :
    (updateStudent st id p).2.students.map (fun e => e.1) =
      st.students.map (fun e => e.1) ∧
    (updateStudent st id p).2.subjects = st.subjects ∧
    mapGet (updateStudent st id p).2.students id = some (applyPatch ex p) ∧
    (∀ j, j ≠ id →
      mapGet (updateStudent st id p).2.students j = mapGet st.students j) ∧
    (updateStudent st id p).1 =
      some { applyPatch ex p with
        subjects := getSubjectsByStudentId st id } ∧
    (applyPatch ex p).createdAt = ex.createdAt ∧
    (p.id = none → (applyPatch ex p).id = ex.id) ∧
    (∀ v, p.id = some v → (applyPatch ex p).id = v) ∧
    (p.name = none → (applyPatch ex p).name = ex.name) ∧
    (∀ v, p.name = some v → (applyPatch ex p).name = v) ∧
    (p.email = none → (applyPatch ex p).email = ex.email) ∧
    (∀ v, p.email = some v → (applyPatch ex p).email = v) ∧
    (p.intake = none → (applyPatch ex p).intake = ex.intake) ∧
    (∀ v, p.intake = some v → (applyPatch ex p).intake = v) ∧
    (p.programme = none → (applyPatch ex p).programme = ex.programme) ∧
    (∀ v, p.programme = some v → (applyPatch ex p).programme = v) ∧
    (p.cgpa = none → (applyPatch ex p).cgpa = ex.cgpa) ∧
    (∀ v, p.cgpa = some v → (applyPatch ex p).cgpa = v) ∧
    (p.credits = none → (applyPatch ex p).credits = ex.credits) ∧
    (∀ v, p.credits = some v → (applyPatch ex p).credits = v) ∧
    (p.subjects = none → (applyPatch ex p).subjects = ex.subjects) ∧
    (∀ v, p.subjects = some v → (applyPatch ex p).subjects = v) := by
  have hhas : mapHas st.students id = true := mapHas_of_mapGet h
  unfold updateStudent
  rw [h]
  refine ⟨mapSet_keys_present _ _ _ hhas, rfl, mapGet_mapSet_self _ _ _,
    fun j hj => mapGet_mapSet_other _ _ _ _ hj, rfl, rfl,
    fun hf => by simp [applyPatch, hf], fun v hf => by simp [applyPatch, hf],
    fun hf => by simp [applyPatch, hf], fun v hf => by simp [applyPatch, hf],
    fun hf => by simp [applyPatch, hf], fun v hf => by simp [applyPatch, hf],
    fun hf => by simp [applyPatch, hf], fun v hf => by simp [applyPatch, hf],
    fun hf => by simp [applyPatch, hf], fun v hf => by simp [applyPatch, hf],
    fun hf => by simp [applyPatch, hf], fun v hf => by simp [applyPatch, hf],
    fun hf => by simp [applyPatch, hf], fun v hf => by simp [applyPatch, hf],
    fun hf => by simp [applyPatch, hf], fun v hf => by simp [applyPatch, hf]⟩

/-- Witness for the C3 amended theorem at a concrete store and patch. -/
theorem c3_witness :
    mapGet (updateStudent storeA "A0001" idPatch).2.students "A0001" =
      some (applyPatch studentA idPatch) ∧
    (applyPatch studentA idPatch).createdAt = studentA.createdAt ∧
    (applyPatch studentA idPatch).name = studentA.name :=
  have h := c3_update_frame storeA "A0001" idPatch studentA rfl
  ⟨h.2.2.1, h.2.2.2.2.2.1, h.2.2.2.2.2.2.2.2.1 rfl⟩

/-- C4 counterexample: subjects are joined by a bare `studentId` match
with no referential integrity, so when a subject referencing id "A1"
already exists (orphaned, e.g. created before the student or surviving
a delete), `getStudent` right after `createStudent` returns a NON-empty
subject list — the claim that the joined list is initially empty fails
for such stores. -/
theorem c4_counterexample :
    orphanSubject ∈ getSubjectsByStudentId orphanStore "A1" ∧
    (getStudent (createStudent orphanStore insertA1 5).2 "A1").map
      (fun s => s.subjects) = some [orphanSubject] ∧
    ([orphanSubject] : List Subject) ≠ [] := by
  refine ⟨by decide, by decide, by decide⟩

/-- C4 amended: `createStudent` returns the built student (credits
defaulted to 0 when absent, `createdAt` set at creation) with an empty
subject list, and a subsequent `getStudent(input.id)` succeeds and
returns the built student joined with the subjects already referencing
`input.id` — a list that is empty exactly when no stored subject
references that id (in particular in a store with no such subjects),
in which case the fetched record equals the one `createStudent`
returned. -/
theorem c4_create_then_get (st : StoreState) (ins : InsertStudent) (now : Nat) :
    (createStudent st ins now).1 = { buildStudent ins now with subjects := [] } ∧
    getStudent (createStudent st ins now).2 ins.id =
      some { buildStudent ins now with
        subjects := getSubjectsByStudentId st ins.id } ∧
    (ins.credits = none → (buildStudent ins now).credits = 0) ∧
    (buildStudent ins now).createdAt = now ∧
    (getSubjectsByStudentId st ins.id = [] →
      getStudent (createStudent st ins now).2 ins.id =
        some ((createStudent st ins now).1)) := by
  have hget : getStudent (createStudent st ins now).2 ins.id =
      some { buildStudent ins now with
        subjects := getSubjectsByStudentId st ins.id } := by
    unfold getStudent
    rw [createStudent_students, mapGet_mapSet_self]
    rfl
  refine ⟨rfl, hget, fun hcr => by simp [buildStudent, hcr], rfl, fun hemp => ?_⟩
  rw [hget, hemp]
  rfl

/-- Witness for the C4 amended theorem: in a store with no subjects the
fetched record equals the created one. -/
theorem c4_witness :
    getStudent (createStudent emptyStore insertA1 5).2 "A1" =
      some ((createStudent emptyStore insertA1 5).1) :=
  (c4_create_then_get emptyStore insertA1 5).2.2.2.2 rfl

/-- C8: `deleteStudent` returns true exactly when an entry with the key
existed, removes that key (so no student of `getAllStudents` carries it
afterwards, given the stored key/field coherence), and leaves the
subjects collection untouched, so subjects previously associated with
the id stay retrievable. -/
theorem c8_delete_keeps_subjects (st : StoreState) (id : String)
    (hwf : ∀ e, e ∈ st.students → e.2.id = e.1) :
    ((deleteStudent st id).1 = true ↔ ∃ v, (id, v) ∈ st.students) ∧
    mapGet (deleteStudent st id).2.students id = none ∧
    (∀ s, s ∈ getAllStudents (deleteStudent st id).2 → s.id ≠ id) ∧
    (deleteStudent st id).2.subjects = st.subjects ∧
    (∀ sid, getSubjectsByStudentId (deleteStudent st id).2 sid =
      getSubjectsByStudentId st sid) := by
  refine ⟨?_, mapGet_mapDelete_self _ _, ?_, rfl, fun sid => rfl⟩
  · rw [show (deleteStudent st id).1 = mapHas st.students id from rfl,
      mapHas_iff]
    constructor
    · intro hmem
      obtain ⟨e, he, hek⟩ := List.mem_map.1 hmem
      exact ⟨e.2, by rwa [← hek, Prod.mk.eta]⟩
    · rintro ⟨v, hv⟩
      exact List.mem_map.2 ⟨(id, v), hv, rfl⟩
  · intro s hs
    obtain ⟨v, hv, hvs⟩ := List.mem_map.1 hs
    obtain ⟨e, he, hev⟩ := List.mem_map.1 hv
    have hmem : e ∈ st.students := List.mem_of_mem_filter he
    have hne : e.1 ≠ id := by
      have h2 := List.of_mem_filter he
      simpa using h2
    rw [← hvs, ← hev]
    show (joinStudent (deleteStudent st id).2 e.2).id ≠ id
    rw [show (joinStudent (deleteStudent st id).2 e.2).id = e.2.id from rfl,
      hwf e hmem]
    exact hne

/-- Witness for C8 at a concrete one-student store. -/
theorem c8_witness :
    (∀ e, e ∈ storeA.students → e.2.id = e.1) ∧
    ((deleteStudent storeA "A0001").1 = true ↔
      ∃ v, ("A0001", v) ∈ storeA.students) ∧
    mapGet (deleteStudent storeA "A0001").2.students "A0001" = none :=
  have h := c8_delete_keeps_subjects storeA "A0001" (by decide)
  ⟨by decide, h.1, h.2.1⟩

/-- C9: creating twice with the same id leaves exactly one entry under
that key, holding the attributes of the later call (last write wins,
no error signal), and keeps the stored keys unique. -/
theorem c9_duplicate_create_overwrites (st : StoreState)
    (i1 i2 : InsertStudent) (t1 t2 : Nat) (hid : i1.id = i2.id)
    (hnd : (st.students.map (fun e => e.1)).Nodup) :
    (((createStudent (createStudent st i1 t1).2 i2 t2).2.students.filter
      (fun e => e.1 == i1.id)).length = 1) ∧
    mapGet (createStudent (createStudent st i1 t1).2 i2 t2).2.students
      i2.id = some (buildStudent i2 t2) ∧
    (((createStudent (createStudent st i1 t1).2 i2 t2).2.students.map
      (fun e => e.1)).Nodup) := by
  have hnd1 :
      ((mapSet st.students i1.id (buildStudent i1 t1)).map
        (fun e => e.1)).Nodup :=
    mapSet_keys_nodup _ _ _ hnd
  refine ⟨?_, ?_, ?_⟩
  · rw [hid]
    show ((mapSet (mapSet st.students i1.id (buildStudent i1 t1)) i2.id
      (buildStudent i2 t2)).filter (fun e => e.1 == i2.id)).length = 1
    rw [mapSet_filter_self _ _ _ hnd1]
    rfl
  · show mapGet (mapSet (mapSet st.students i1.id (buildStudent i1 t1))
      i2.id (buildStudent i2 t2)) i2.id = some (buildStudent i2 t2)
    exact mapGet_mapSet_self _ _ _
  · show ((mapSet (mapSet st.students i1.id (buildStudent i1 t1)) i2.id
      (buildStudent i2 t2)).map (fun e => e.1)).Nodup
    exact mapSet_keys_nodup _ _ _ hnd1

/-- Witness for C9: two inserts with id "A1" into the empty store. -/
theorem c9_witness :
    (((createStudent (createStudent emptyStore insertA1 1).2 insertA1v2
      2).2.students.filter (fun e => e.1 == insertA1.id)).length = 1) ∧
    mapGet (createStudent (createStudent emptyStore insertA1 1).2 insertA1v2
      2).2.students insertA1v2.id = some (buildStudent insertA1v2 2) :=
  have h := c9_duplicate_create_overwrites emptyStore insertA1 insertA1v2 1 2
    rfl (by simp [emptyStore])
  ⟨h.1, h.2.1⟩

end MemStorage
